import Mathlib

/-!
Verification of the land-registry application (ydkdan6/land-verify).

The development shallowly embeds:
* the row-level-security (RLS) policy model of the SQL migration
  `supabase/migrations/20250624164004_bronze_villa.sql` (tables, policies,
  and the Postgres semantics of permissive policies: a command is allowed
  when some applicable policy's predicate accepts it; a `FOR ALL` policy
  with only a `USING` clause re-uses that clause as its `WITH CHECK`);
* the client-side handlers of the screens (`app/(admin)/documents.tsx`,
  `app/(admin)/lands.tsx`, `app/(landowner)/index.tsx`,
  `app/(public)/index.tsx`, the notifications screen) as pure functions
  from their inputs to the requests/state they produce;
* the auth provider (`contexts/AuthContext.tsx`) as a transition system,
  and the role-based router (`app/index.tsx`) as a pure routing function.

Enumerated SQL `text` columns (roles, statuses) are modelled as `String`,
matching the runtime representation; `decimal` columns as `ℚ`; nullable
columns as `Option`.
-/

namespace LandVerify

abbrev Uuid := String

/-- Row of `profiles` (equally, of the client's `user_profiles` row type):
id, email, full_name, role ∈ {admin, landowner, public}, optional phone. -/
structure Profile where
  id : Uuid
  email : String
  full_name : String
  role : String
  phone : Option String
deriving DecidableEq, Repr

/-- Row of `land_records`: title, location, optional coordinates, size and
unit, ownership_status ∈ {verified, pending, disputed}, zoning, optional
price and description, optional owner and verifier references. -/
structure LandRecord where
  id : Uuid
  title : String
  location : String
  coordinates : Option String
  size : ℚ
  size_unit : String
  ownership_status : String
  zoning : String
  price : Option ℚ
  description : Option String
  owner_id : Option Uuid
  verified_by : Option Uuid
deriving DecidableEq, Repr

/-- Row of `ownership_documents`. -/
structure DocumentRow where
  id : Uuid
  land_record_id : Option Uuid
  document_type : String
  document_url : String
  status : String
  submitted_by : Option Uuid
  reviewed_by : Option Uuid
  notes : Option String
deriving DecidableEq, Repr

/-- Row of `notifications`. -/
structure NotificationRow where
  id : Uuid
  user_id : Option Uuid
  title : String
  message : String
  ntype : String
  read : Bool
deriving DecidableEq, Repr

/-- The stored tables the policy predicates consult. -/
structure DB where
  profiles : List Profile
  land_records : List LandRecord
  notifications : List NotificationRow
deriving DecidableEq, Repr

/-- `EXISTS (SELECT 1 FROM profiles WHERE id = auth.uid() AND role = 'admin')`. -/
def isAdmin (db : DB) (uid : Uuid) : Bool :=
  db.profiles.any fun p => decide (p.id = uid) && decide (p.role = "admin")

/-- `EXISTS (SELECT 1 FROM land_records lr WHERE lr.id = land_record_id AND
lr.owner_id = auth.uid())`; SQL `=` on a NULL operand is not true, which the
`Option` equalities capture. -/
def ownsReferencedLand (db : DB) (uid : Uuid) (land_record_id : Option Uuid) : Bool :=
  db.land_records.any fun lr =>
    decide (some lr.id = land_record_id) && decide (lr.owner_id = some uid)

/-- The command scope of a `CREATE POLICY` statement. -/
inductive PolicyCmd
  | forSelect
  | forInsert
  | forUpdate
  | forDelete
  | forAll
deriving DecidableEq, Repr

/-- A permissive row-level-security policy on rows of type `Row`.  A policy
written without `WITH CHECK` has `withCheck = none`, in which case Postgres
falls back to the `USING` expression for commands that check new rows. -/
structure Policy (Row : Type) where
  cmd : PolicyCmd
  usingPred : DB → Uuid → Row → Bool := fun _ _ _ => true
  withCheck : Option (DB → Uuid → Row → Bool) := none

/-- The predicate Postgres checks new rows against: `WITH CHECK` when
given, else the `USING` expression. -/
def Policy.checkOf {Row : Type} (p : Policy Row) : DB → Uuid → Row → Bool :=
  p.withCheck.getD p.usingPred

def cmdCoversInsert : PolicyCmd → Bool
  | .forInsert => true
  | .forAll => true
  | _ => false

def cmdCoversUpdate : PolicyCmd → Bool
  | .forUpdate => true
  | .forAll => true
  | _ => false

def cmdCoversDelete : PolicyCmd → Bool
  | .forDelete => true
  | .forAll => true
  | _ => false

/-- An INSERT of `row` is accepted when some policy applicable to INSERT
accepts the new row (permissive policies are OR-combined). -/
def rlsInsertAllowed {Row : Type} (ps : List (Policy Row)) (db : DB) (uid : Uuid)
    (row : Row) : Bool :=
  ps.any fun p => cmdCoversInsert p.cmd && p.checkOf db uid row

/-- An UPDATE from `old` to `new` is accepted when the old row is visible
under some UPDATE-applicable policy's `USING` and the new row passes some
UPDATE-applicable policy's check. -/
def rlsUpdateAllowed {Row : Type} (ps : List (Policy Row)) (db : DB) (uid : Uuid)
    (old new : Row) : Bool :=
  (ps.any fun p => cmdCoversUpdate p.cmd && p.usingPred db uid old) &&
  (ps.any fun p => cmdCoversUpdate p.cmd && p.checkOf db uid new)

/-- A DELETE of `row` is accepted when some DELETE-applicable policy's
`USING` accepts the row; with no such policy the command removes nothing. -/
def rlsDeleteRowAllowed {Row : Type} (ps : List (Policy Row)) (db : DB) (uid : Uuid)
    (row : Row) : Bool :=
  ps.any fun p => cmdCoversDelete p.cmd && p.usingPred db uid row

/-- The three policies on `ownership_documents`, in migration order:
"Users can read documents for their land" (SELECT), "Users can insert
documents for their land" (INSERT), "Admins can manage all documents"
(ALL, `USING` only). -/
def ownershipDocumentsPolicies : List (Policy DocumentRow) :=
  [ { cmd := .forSelect
      usingPred := fun db uid row =>
        decide (row.submitted_by = some uid) ||
        ownsReferencedLand db uid row.land_record_id ||
        isAdmin db uid }
  , { cmd := .forInsert
      withCheck := some fun db uid row =>
        decide (row.submitted_by = some uid) &&
        ownsReferencedLand db uid row.land_record_id }
  , { cmd := .forAll
      usingPred := fun db uid _ => isAdmin db uid } ]

/-- The three policies on `land_records`: "Anyone can read land records"
(SELECT), "Admins can manage all land records" (ALL), "Landowners can
manage their own land records" (ALL). -/
def landRecordsPolicies : List (Policy LandRecord) :=
  [ { cmd := .forSelect }
  , { cmd := .forAll
      usingPred := fun db uid _ => isAdmin db uid }
  , { cmd := .forAll
      usingPred := fun db uid row =>
        decide (row.owner_id = some uid) || isAdmin db uid } ]

/-- The three policies on `notifications`: "Users can read their own
notifications" (SELECT), "Users can update their own notifications"
(UPDATE), "System can create notifications" (INSERT, `WITH CHECK (true)`).
No DELETE-applicable policy exists. -/
def notificationsPolicies : List (Policy NotificationRow) :=
  [ { cmd := .forSelect
      usingPred := fun _ uid row => decide (row.user_id = some uid) }
  , { cmd := .forUpdate
      usingPred := fun _ uid row => decide (row.user_id = some uid) }
  , { cmd := .forInsert
      withCheck := some fun _ _ _ => true } ]

/-! ### Admin document review (`app/(admin)/documents.tsx`) -/

/-- The `land_records (id, title, location)` join selected with each
document in the admin review list. -/
structure LandJoin where
  id : Uuid
  title : String
  location : String
deriving DecidableEq, Repr

/-- One entry of the admin review list: an `ownership_documents` row with
its optional joined land record (`document.land_records`). -/
structure AdminDocView where
  id : Uuid
  document_type : String
  status : String
  submitted_by : Option Uuid
  land_records : Option LandJoin
deriving DecidableEq, Repr

/-- The two actions `handleDocumentAction` accepts. -/
inductive DocAction
  | approved
  | rejected
deriving DecidableEq, Repr

def actionStr : DocAction → String
  | .approved => "approved"
  | .rejected => "rejected"

/-- JavaScript string interpolation of `document.land_records?.title`:
an absent join renders as the text `undefined`. -/
def landTitleText : Option LandJoin → String
  | some lj => lj.title
  | none => "undefined"

/-- The row handed to `supabase.from('notifications').insert(...)`. -/
structure NotificationInsert where
  user_id : Option Uuid
  title : String
  message : String
  ntype : String
deriving DecidableEq, Repr

/-- The update request `handleDocumentAction` issues against
`ownership_documents`. -/
structure DocUpdateReq where
  docId : Uuid
  status : String
  reviewed_by : Option Uuid
  notes : Option String
deriving DecidableEq, Repr

/-- The notification `handleDocumentAction` builds for a found document. -/
def notificationFor (doc : AdminDocView) (action : DocAction) : NotificationInsert :=
  { user_id := doc.submitted_by
    title := "Document " ++ actionStr action
    message := "Your " ++ doc.document_type ++ " document for " ++
      landTitleText doc.land_records ++ " has been " ++ actionStr action ++ "."
    ntype := if action = .approved then "success" else "warning" }

/-- `handleDocumentAction(documentId, action, notes)`: issues the status
update, then looks the document up in the fetched list and, when found,
inserts exactly one notification for its submitter.  Returns the update
request and the list of notification inserts performed. -/
def handleDocumentAction (profileId : Option Uuid) (docs : List AdminDocView)
    (documentId : Uuid) (action : DocAction) (notes : Option String) :
    DocUpdateReq × List NotificationInsert :=
  ( { docId := documentId
      status := actionStr action
      reviewed_by := profileId
      notes := notes }
  , match docs.find? fun d => decide (d.id = documentId) with
    | some doc => [notificationFor doc action]
    | none => [] )

/-! ### Add-land handlers (`app/(landowner)/index.tsx`, `app/(admin)/lands.tsx`) -/

/-- The form state common to both add-land modals; every field is a text
input, empty string meaning "not provided". -/
structure LandFormData where
  title : String
  location : String
  coordinates : String
  size : String
  size_unit : String
  zoning : String
  price : String
  description : String
deriving DecidableEq, Repr

/-- The row handed to `supabase.from('land_records').insert(...)`.
Columns a handler leaves out are `none`. -/
structure LandInsert where
  title : String
  location : String
  coordinates : Option String
  size : ℚ
  size_unit : String
  zoning : String
  price : Option ℚ
  description : Option String
  owner_id : Option Uuid
  verified_by : Option Uuid
  ownership_status : String
deriving DecidableEq, Repr

/-- `handleAddLand` of the landowner dashboard: validates the required
fields, then inserts with `owner_id = profile?.id` and
`ownership_status = 'pending'`.  `parseNum` stands for `parseFloat`. -/
def landownerAddLand (parseNum : String → ℚ) (form : LandFormData)
    (profile : Option Profile) : Option LandInsert :=
  if form.title = "" ∨ form.location = "" ∨ form.size = "" ∨ form.zoning = "" then
    none
  else
    some
      { title := form.title
        location := form.location
        coordinates := if form.coordinates = "" then none else some form.coordinates
        size := parseNum form.size
        size_unit := form.size_unit
        zoning := form.zoning
        price := if form.price = "" then none else some (parseNum form.price)
        description := if form.description = "" then none else some form.description
        owner_id := profile.map Profile.id
        verified_by := none
        ownership_status := "pending" }

/-- `handleAddLand` of the admin lands screen: same validation, but the
insert carries `verified_by = profile?.id`, `ownership_status = 'verified'`
and no `owner_id`. -/
def adminAddLand (parseNum : String → ℚ) (form : LandFormData)
    (profile : Option Profile) : Option LandInsert :=
  if form.title = "" ∨ form.location = "" ∨ form.size = "" ∨ form.zoning = "" then
    none
  else
    some
      { title := form.title
        location := form.location
        coordinates := if form.coordinates = "" then none else some form.coordinates
        size := parseNum form.size
        size_unit := form.size_unit
        zoning := form.zoning
        price := if form.price = "" then none else some (parseNum form.price)
        description := if form.description = "" then none else some form.description
        owner_id := none
        verified_by := profile.map Profile.id
        ownership_status := "verified" }

/-! ### Role-based router (`app/index.tsx`) -/

/-- Where the index screen sends the user: `wait` renders the spinner and
issues no redirect; the others are `router.replace` targets. -/
inductive Route
  | wait
  | toAuth
  | toAdmin
  | toLandowner
  | toPublic
deriving DecidableEq, Repr

/-- Opaque session handle; the router only tests its presence. -/
abbrev SessionTok := String

/-- The routing decision of `IndexScreen` as a function of
`(loading, session, profile)`: spinner while loading; `/auth` when session
or profile is missing; otherwise the switch on `profile.role` with `/auth`
as the default branch. -/
def routeDecision (loading : Bool) (session : Option SessionTok)
    (profile : Option Profile) : Route :=
  if loading then Route.wait
  else
    match session, profile with
    | some _, some p =>
        if p.role = "admin" then Route.toAdmin
        else if p.role = "landowner" then Route.toLandowner
        else if p.role = "public" then Route.toPublic
        else Route.toAuth
    | _, _ => Route.toAuth

/-! ### Notifications screen (`markAllAsRead`, `deleteNotification`) -/

/-- A client update request `update(...).filter(cond)` executed by the
server: a stored row is replaced by `f r` exactly when it matches the
request's filter and the UPDATE is allowed for `uid` under the table's
policies (old row visible, new row passing a check). -/
def rlsApplyUpdate {Row : Type} (ps : List (Policy Row)) (db : DB) (uid : Uuid)
    (cond : Row → Bool) (f : Row → Row) (table : List Row) : List Row :=
  table.map fun r => if cond r && rlsUpdateAllowed ps db uid r (f r) then f r else r

/-- `markAllAsRead` of the notifications screen, as it lands on the stored
table: the fetched list is the user's rows (`.eq('user_id', profile.id)`,
which the SELECT policy also enforces); the ids of its unread entries are
collected; with none the handler returns early; otherwise
`update({read: true}).in('id', unreadIds)` runs under the UPDATE policy. -/
def markAllAsRead (db : DB) (uid : Uuid) : List NotificationRow :=
  let fetched := db.notifications.filter fun n => decide (n.user_id = some uid)
  let unreadIds := (fetched.filter fun n => !n.read).map NotificationRow.id
  if unreadIds.isEmpty then db.notifications
  else
    rlsApplyUpdate notificationsPolicies db uid
      (fun n => decide (n.id ∈ unreadIds)) (fun n => { n with read := true })
      db.notifications

/-- `deleteNotification`'s `delete().eq('id', notificationId)` as it lands
on the stored table: a row is removed exactly when it matches the filter
and some DELETE-applicable policy accepts it. -/
def deleteNotificationServer (db : DB) (uid : Uuid) (notifId : Uuid) :
    List NotificationRow :=
  db.notifications.filter fun n =>
    !(decide (n.id = notifId) && rlsDeleteRowAllowed notificationsPolicies db uid n)

/-- `deleteNotification`'s local state update:
`prev.filter(n => n.id !== notificationId)`. -/
def deleteNotificationLocal (shown : List NotificationRow) (notifId : Uuid) :
    List NotificationRow :=
  shown.filter fun n => !decide (n.id = notifId)

/-! ### Public search screen (`app/(public)/index.tsx`) -/

/-- Char-list version of JavaScript `String.prototype.startsWith`. -/
def charsStart : List Char → List Char → Bool
  | _, [] => true
  | [], _ :: _ => false
  | c :: cs, d :: ds => c == d && charsStart cs ds

/-- Char-list version of JavaScript `String.prototype.includes`. -/
def charsContain (sub : List Char) : List Char → Bool
  | [] => charsStart [] sub
  | c :: cs => charsStart (c :: cs) sub || charsContain sub cs

/-- `s.includes(sub)`. -/
def includesStr (s sub : String) : Bool :=
  charsContain sub.data s.data

/-- The filter form state of the public search screen; numeric bounds are
text inputs, empty string meaning "unset". -/
structure Filters where
  minPrice : String
  maxPrice : String
  minSize : String
  maxSize : String
  zoning : String
  status : String
deriving DecidableEq, Repr

/-- The screen's initial (cleared) filter state. -/
def emptyFilters : Filters :=
  { minPrice := ""
    maxPrice := ""
    minSize := ""
    maxSize := ""
    zoning := ""
    status := "verified" }

/-- The public screen's `fetchLands` query:
`.eq('ownership_status', 'verified')` over `land_records`. -/
def publicFetchLands (db : DB) : List LandRecord :=
  db.land_records.filter fun lr => decide (lr.ownership_status = "verified")

/-- The search predicate of `applyFilters`: case-insensitive containment in
title, location or zoning. -/
def matchesSearch (land : LandRecord) (q : String) : Bool :=
  includesStr land.title.toLower q.toLower ||
  includesStr land.location.toLower q.toLower ||
  includesStr land.zoning.toLower q.toLower

/-- `land.price && land.price >= parseFloat(min)`: a `null` or `0` price is
falsy and fails the bound outright. -/
def priceAtLeast (parseNum : String → ℚ) (price : Option ℚ) (minP : String) : Bool :=
  match price with
  | none => false
  | some p => !decide (p = 0) && decide (parseNum minP ≤ p)

/-- `land.price && land.price <= parseFloat(max)`. -/
def priceAtMost (parseNum : String → ℚ) (price : Option ℚ) (maxP : String) : Bool :=
  match price with
  | none => false
  | some p => !decide (p = 0) && decide (p ≤ parseNum maxP)

/-- `applyFilters` of the public search screen: each filter stage runs only
when its control is set (a non-empty string), narrowing the previous
stage's list. -/
def applyFilters (parseNum : String → ℚ) (lands : List LandRecord) (q : String)
    (fl : Filters) : List LandRecord :=
  let f1 := if q = "" then lands else lands.filter fun land => matchesSearch land q
  let f2 := if fl.minPrice = "" then f1 else
    f1.filter fun land => priceAtLeast parseNum land.price fl.minPrice
  let f3 := if fl.maxPrice = "" then f2 else
    f2.filter fun land => priceAtMost parseNum land.price fl.maxPrice
  let f4 := if fl.minSize = "" then f3 else
    f3.filter fun land => decide (parseNum fl.minSize ≤ land.size)
  let f5 := if fl.maxSize = "" then f4 else
    f4.filter fun land => decide (land.size ≤ parseNum fl.maxSize)
  if fl.zoning = "" then f5 else
    f5.filter fun land => includesStr land.zoning.toLower fl.zoning.toLower

/-! ### Error handling at data-access call sites -/

/-- What a handler's `catch` path does when its data access fails:
whether the failure is caught, how many user-facing alerts it shows, how
many retries it performs, and whether it logs. -/
structure CatchBehavior where
  caught : Bool
  alerts : Nat
  retries : Nat
  logs : Bool
deriving DecidableEq, Repr

/-- Every data-access handler of the client screens with its failure
behaviour, read off the `try/catch` block of each:
admin documents screen (`fetchDocuments`, `handleDocumentAction`), admin
lands screen (`fetchLands`, `handleAddLand`, `handleVerifyLand`,
`handleDeleteLand`), admin dashboard (`fetchDashboardData`), admin users
screen (`fetchUsers`), landowner dashboard (`fetchMyLands`,
`handleAddLand`), landowner documents screen (`fetchDocuments`,
`fetchMyLands`, `handleSubmitDocument`), landowner notifications screen
(`fetchNotifications`, `markAsRead`, `deleteNotification`,
`markAllAsRead`), public search (`fetchLands`,
`requestOwnershipVerification`), public lands (`fetchLands`), profile
screen (`handleSignOut`, `handleSave`, `fetchZoningLaws`, `handleSubmit`),
and the auth provider's `fetchProfile`.  `markAsRead`, the landowner
documents screen's `fetchMyLands`, and `fetchProfile` only log. -/
def clientHandlers : List (String × CatchBehavior) :=
  [ ("adminDocuments.fetchDocuments", ⟨true, 1, 0, true⟩)
  , ("adminDocuments.handleDocumentAction", ⟨true, 1, 0, true⟩)
  , ("adminLands.fetchLands", ⟨true, 1, 0, true⟩)
  , ("adminLands.handleAddLand", ⟨true, 1, 0, true⟩)
  , ("adminLands.handleVerifyLand", ⟨true, 1, 0, true⟩)
  , ("adminLands.handleDeleteLand", ⟨true, 1, 0, true⟩)
  , ("adminDashboard.fetchDashboardData", ⟨true, 1, 0, true⟩)
  , ("adminUsers.fetchUsers", ⟨true, 1, 0, true⟩)
  , ("landownerDashboard.fetchMyLands", ⟨true, 1, 0, true⟩)
  , ("landownerDashboard.handleAddLand", ⟨true, 1, 0, true⟩)
  , ("landownerDocuments.fetchDocuments", ⟨true, 1, 0, true⟩)
  , ("landownerDocuments.fetchMyLands", ⟨true, 0, 0, true⟩)
  , ("landownerDocuments.handleSubmitDocument", ⟨true, 1, 0, true⟩)
  , ("notifications.fetchNotifications", ⟨true, 1, 0, true⟩)
  , ("notifications.markAsRead", ⟨true, 0, 0, true⟩)
  , ("notifications.deleteNotification", ⟨true, 1, 0, true⟩)
  , ("notifications.markAllAsRead", ⟨true, 1, 0, true⟩)
  , ("publicSearch.fetchLands", ⟨true, 1, 0, true⟩)
  , ("publicSearch.requestOwnershipVerification", ⟨true, 1, 0, true⟩)
  , ("publicLands.fetchLands", ⟨true, 1, 0, true⟩)
  , ("profile.handleSignOut", ⟨true, 1, 0, true⟩)
  , ("profile.handleSave", ⟨true, 1, 0, true⟩)
  , ("profile.fetchZoningLaws", ⟨true, 1, 0, true⟩)
  , ("profile.handleSubmit", ⟨true, 1, 0, true⟩)
  , ("authContext.fetchProfile", ⟨true, 0, 0, true⟩) ]

/-! ### Auth provider state machine (`contexts/AuthContext.tsx`) -/

/-- The provider's React state. -/
structure AuthState where
  session : Option Uuid
  user : Option Uuid
  profile : Option Profile
  loading : Bool
deriving DecidableEq, Repr

/-- The asynchronous completions that drive the provider:
`getSession()` resolving (with or without a user) or rejecting, an
`onAuthStateChange` event, and a `fetchProfile` call settling (with the
fetched profile, or without one on error). -/
inductive AuthEvent
  | initialSession (s : Option Uuid)
  | initialSessionFailed
  | authChange (s : Option Uuid)
  | profileFetched (r : Option Profile)
deriving DecidableEq, Repr

/-- `useState(true)`: the provider starts loading with nothing set. -/
def authStart : AuthState :=
  { session := none, user := none, profile := none, loading := true }

/-- One transition of the provider: a session carrying a user starts a
profile fetch (`fetchProfile` does `setLoading(true)` first); a missing
user resolves loading immediately (and an auth-change without a user also
clears the profile); a settled profile fetch stores any fetched data and
ends loading in its `finally`. -/
def authStep (st : AuthState) (e : AuthEvent) : AuthState :=
  match e with
  | .initialSession (some uid) =>
      { st with session := some uid, user := some uid, loading := true }
  | .initialSession none =>
      { st with session := none, user := none, loading := false }
  | .initialSessionFailed =>
      { st with loading := false }
  | .authChange (some uid) =>
      { st with session := some uid, user := some uid, loading := true }
  | .authChange none =>
      { st with session := none, user := none, profile := none, loading := false }
  | .profileFetched (some p) =>
      { st with profile := some p, loading := false }
  | .profileFetched none =>
      { st with loading := false }

/-- The two loading-ending occasions claim C9 names: the initial session
check resolving with no user, and a profile fetch settling. -/
def claimedSettleEvent : AuthEvent → Bool
  | .initialSession none => true
  | .profileFetched _ => true
  | _ => false

/-- Every event after which `loading` is false: additionally the initial
session check rejecting, and an auth-state change without a user. -/
def settlesLoading : AuthEvent → Bool
  | .initialSession none => true
  | .initialSessionFailed => true
  | .authChange none => true
  | .profileFetched _ => true
  | _ => false

/-! ### Concrete sample data used by witnesses and counterexamples -/

def ownerUid : Uuid := "landowner-1"

def adminUid : Uuid := "admin-1"

def ownerProfile : Profile :=
  { id := ownerUid, email := "owner@example.com", full_name := "Owner One"
    role := "landowner", phone := none }

def adminProfile : Profile :=
  { id := adminUid, email := "admin@example.com", full_name := "Admin One"
    role := "admin", phone := none }

def publicProfile : Profile :=
  { id := "public-1", email := "pub@example.com", full_name := "Public One"
    role := "public", phone := none }

/-- A profile whose role is outside the recognized set. -/
def oddRoleProfile : Profile :=
  { id := "odd-1", email := "odd@example.com", full_name := "Odd One"
    role := "manager", phone := none }

def plotPending : LandRecord :=
  { id := "land-1", title := "Plot A", location := "North District"
    coordinates := none, size := 2, size_unit := "acres"
    ownership_status := "pending", zoning := "Residential", price := none
    description := none, owner_id := some ownerUid, verified_by := none }

/-- `plotPending` after its owner rewrites the status field. -/
def plotVerifiedByOwner : LandRecord :=
  { plotPending with ownership_status := "verified" }

def dbLand : DB :=
  { profiles := [ownerProfile], land_records := [plotPending], notifications := [] }

def sampleForm : LandFormData :=
  { title := "Plot A", location := "North District", coordinates := ""
    size := "2", size_unit := "acres", zoning := "Residential", price := ""
    description := "" }

/-- A stand-in for `parseFloat` at witness inputs. -/
def constParse : String → ℚ := fun _ => 2

def sampleLandownerInsert : LandInsert :=
  { title := "Plot A", location := "North District", coordinates := none
    size := 2, size_unit := "acres", zoning := "Residential", price := none
    description := none, owner_id := some ownerUid, verified_by := none
    ownership_status := "pending" }

def sampleAdminInsert : LandInsert :=
  { sampleLandownerInsert with
    owner_id := none
    verified_by := some adminUid
    ownership_status := "verified" }

def sampleSession : SessionTok := "session-1"

def samplePlotJoin : LandJoin :=
  { id := "land-1", title := "Plot A", location := "North District" }

def sampleDocId : Uuid := "doc-1"

/-- A pending deed for land "Plot A" submitted by the landowner, as the
admin review list shows it. -/
def sampleDoc : AdminDocView :=
  { id := sampleDocId, document_type := "deed", status := "pending"
    submitted_by := some ownerUid, land_records := some samplePlotJoin }

def dbVerified : DB :=
  { profiles := [ownerProfile], land_records := [plotVerifiedByOwner]
    notifications := [] }

/-! ## Theorems -/

/-- Claim C1: an INSERT into `ownership_documents` is accepted if and only
if the caller is an admin, or the row's `submitted_by` equals the caller
and the referenced `land_record_id` names a `LandRecord` whose `owner_id`
equals the caller; in particular a non-admin submitting a document for a
land record they do not own is rejected. -/
theorem ownership_document_insert_policy (db : DB) (uid : Uuid) (row : DocumentRow) :
    rlsInsertAllowed ownershipDocumentsPolicies db uid row = true ↔
      ((∃ p ∈ db.profiles, p.id = uid ∧ p.role = "admin") ∨
        (row.submitted_by = some uid ∧
          ∃ lr ∈ db.land_records, some lr.id = row.land_record_id ∧ lr.owner_id = some uid)) := by
  simp [rlsInsertAllowed, ownershipDocumentsPolicies, Policy.checkOf, cmdCoversInsert,
    isAdmin, ownsReferencedLand, List.any_cons, List.any_nil, List.any_eq_true,
    Bool.and_eq_true, Bool.or_eq_true, decide_eq_true_eq]
  aesop

/-- Claim C3 is refuted by the policy layer: `dbLand` holds one non-admin
landowner who owns `plotPending`; the RLS policies accept that owner's
update rewriting `ownership_status` from `pending` to `verified`. -/
theorem land_status_update_by_owner_counterexample :
    rlsUpdateAllowed landRecordsPolicies dbLand ownerUid plotPending plotVerifiedByOwner = true ∧
    plotPending.ownership_status ≠ plotVerifiedByOwner.ownership_status ∧
    isAdmin dbLand ownerUid = false := by
  decide

/-- Claim C3 (amended): an update to a `land_records` row is permitted
exactly when the caller is an admin or is the row's owner (on the old and
the new row alike); so a record's own non-admin owner can transition
`ownership_status`, and only callers who are neither admin nor owner are
barred. -/
theorem land_record_update_policy (db : DB) (uid : Uuid) (old new : LandRecord) :
    rlsUpdateAllowed landRecordsPolicies db uid old new = true ↔
      (((∃ p ∈ db.profiles, p.id = uid ∧ p.role = "admin") ∨ old.owner_id = some uid) ∧
        ((∃ p ∈ db.profiles, p.id = uid ∧ p.role = "admin") ∨ new.owner_id = some uid)) := by
  simp [rlsUpdateAllowed, landRecordsPolicies, Policy.checkOf, cmdCoversUpdate,
    isAdmin, List.any_cons, List.any_nil, List.any_eq_true,
    Bool.and_eq_true, Bool.or_eq_true, decide_eq_true_eq]
  aesop

/-- Claim C4: the landowner dashboard's add operation inserts every record
with `ownership_status = 'pending'` and `owner_id` the creating profile's
id; the admin screen's add operation inserts with
`ownership_status = 'verified'` and `verified_by` the admin profile's id. -/
theorem add_land_insert_status :
    (∀ parseNum form prof row, landownerAddLand parseNum form (some prof) = some row →
        row.ownership_status = "pending" ∧ row.owner_id = some prof.id) ∧
    (∀ parseNum form prof row, adminAddLand parseNum form (some prof) = some row →
        row.ownership_status = "verified" ∧ row.verified_by = some prof.id) := by
  constructor
  · intro parseNum form prof row h
    unfold landownerAddLand at h
    split at h
    · exact Option.noConfusion h
    · cases h
      exact ⟨rfl, rfl⟩
  · intro parseNum form prof row h
    unfold adminAddLand at h
    split at h
    · exact Option.noConfusion h
    · cases h
      exact ⟨rfl, rfl⟩

/-- Witness for C4 at the sample form: both handlers accept it, the
landowner insert is pending and owned by the landowner, the admin insert is
verified and signed by the admin. -/
theorem add_land_insert_status_witness :
    (sampleLandownerInsert.ownership_status = "pending" ∧
      sampleLandownerInsert.owner_id = some ownerProfile.id) ∧
    (sampleAdminInsert.ownership_status = "verified" ∧
      sampleAdminInsert.verified_by = some adminProfile.id) :=
  ⟨add_land_insert_status.1 constParse sampleForm ownerProfile sampleLandownerInsert
      (by decide),
    add_land_insert_status.2 constParse sampleForm adminProfile sampleAdminInsert
      (by decide)⟩

/-- Claim C5: the index screen's decision is a function of
`(loading, session, profile)`: spinner while loading; `/auth` when session
or profile is missing; otherwise the screen set matching `profile.role`,
with any unrecognized role falling back to `/auth`. -/
theorem index_screen_routing :
    (∀ s p, routeDecision true s p = Route.wait) ∧
    (∀ p, routeDecision false none p = Route.toAuth) ∧
    (∀ s, routeDecision false s none = Route.toAuth) ∧
    (∀ s p, p.role = "admin" → routeDecision false (some s) (some p) = Route.toAdmin) ∧
    (∀ s p, p.role = "landowner" →
      routeDecision false (some s) (some p) = Route.toLandowner) ∧
    (∀ s p, p.role = "public" → routeDecision false (some s) (some p) = Route.toPublic) ∧
    (∀ s p, p.role ≠ "admin" → p.role ≠ "landowner" → p.role ≠ "public" →
      routeDecision false (some s) (some p) = Route.toAuth) := by
  refine ⟨fun s p => rfl, fun p => ?_, fun s => ?_, fun s p h => ?_, fun s p h => ?_,
    fun s p h => ?_, fun s p h1 h2 h3 => ?_⟩
  · cases p <;> rfl
  · cases s <;> rfl
  · simp [routeDecision, h]
  · simp [routeDecision, h]
  · simp [routeDecision, h]
  · simp [routeDecision, h1, h2, h3]

/-- Witness for C5 across all seven routing cases, at concrete profiles of
each role (including the unrecognized role `manager`). -/
theorem index_screen_routing_witness :
    routeDecision true none none = Route.wait ∧
    routeDecision false none (some adminProfile) = Route.toAuth ∧
    routeDecision false (some sampleSession) none = Route.toAuth ∧
    routeDecision false (some sampleSession) (some adminProfile) = Route.toAdmin ∧
    routeDecision false (some sampleSession) (some ownerProfile) = Route.toLandowner ∧
    routeDecision false (some sampleSession) (some publicProfile) = Route.toPublic ∧
    routeDecision false (some sampleSession) (some oddRoleProfile) = Route.toAuth :=
  ⟨index_screen_routing.1 none none,
    index_screen_routing.2.1 (some adminProfile),
    index_screen_routing.2.2.1 (some sampleSession),
    index_screen_routing.2.2.2.1 sampleSession adminProfile (by decide),
    index_screen_routing.2.2.2.2.1 sampleSession ownerProfile (by decide),
    index_screen_routing.2.2.2.2.2.1 sampleSession publicProfile (by decide),
    index_screen_routing.2.2.2.2.2.2 sampleSession oddRoleProfile (by decide)
      (by decide) (by decide)⟩

/-- Claim C2: acting on a document found in the review list inserts exactly
one notification, addressed to the document's submitter; approving yields
type `success` with a message embedding the land record's title, rejecting
yields type `warning`. -/
theorem document_action_notifies_submitter (profileId : Option Uuid)
    (docs : List AdminDocView) (documentId : Uuid) (action : DocAction)
    (notes : Option String) (doc : AdminDocView)
    (h : docs.find? (fun d => decide (d.id = documentId)) = some doc) :
    (handleDocumentAction profileId docs documentId action notes).2 =
      [notificationFor doc action] ∧
    (notificationFor doc action).user_id = doc.submitted_by ∧
    (action = .approved → (notificationFor doc action).ntype = "success" ∧
      ∀ lj, doc.land_records = some lj →
        ∃ pre post, (notificationFor doc action).message = pre ++ (lj.title ++ post)) ∧
    (action = .rejected → (notificationFor doc action).ntype = "warning") := by
  refine ⟨by simp [handleDocumentAction, h], rfl, ?_, ?_⟩
  · rintro rfl
    refine ⟨rfl, fun lj hlj => ?_⟩
    refine ⟨"Your " ++ doc.document_type ++ " document for ",
      " has been " ++ actionStr DocAction.approved ++ ".", ?_⟩
    simp [notificationFor, landTitleText, hlj, String.append_assoc]
  · rintro rfl
    rfl

/-- Witness for C2 at the spec's scenario: approving the pending deed for
"Plot A" submitted by user `ownerUid` produces one `success` notification
for that user whose message embeds the title "Plot A". -/
theorem document_action_notifies_submitter_witness :
    (handleDocumentAction (some adminUid) [sampleDoc] sampleDocId DocAction.approved
        none).2 = [notificationFor sampleDoc DocAction.approved] ∧
    (notificationFor sampleDoc DocAction.approved).user_id = some ownerUid ∧
    (notificationFor sampleDoc DocAction.approved).ntype = "success" ∧
    ∃ pre post,
      (notificationFor sampleDoc DocAction.approved).message =
        pre ++ (samplePlotJoin.title ++ post) := by
  have h := document_action_notifies_submitter (some adminUid) [sampleDoc] sampleDocId
    DocAction.approved none sampleDoc (by decide)
  obtain ⟨h1, h2, h3, _⟩ := h
  obtain ⟨hty, hmsg⟩ := h3 rfl
  exact ⟨h1, h2, hty, hmsg samplePlotJoin rfl⟩

/-- Rewriting `read` to its current value changes nothing. -/
theorem set_read_true_self {n : NotificationRow} (h : n.read = true) :
    ({ n with read := true } : NotificationRow) = n := by
  cases n
  simp_all

/-- A map that fixes every element of a list is the identity on it. -/
theorem list_map_id_of {α : Type} {l : List α} {f : α → α}
    (h : ∀ a ∈ l, f a = a) : l.map f = l := by
  induction l with
  | nil => rfl
  | cons a t ih =>
      simp only [List.map_cons]
      rw [h a (List.mem_cons_self a t), ih fun b hb => h b (List.mem_cons_of_mem a hb)]

/-- The notifications UPDATE policy admits an update whose old and new rows
both belong to the caller. -/
theorem notif_update_allowed_of (db : DB) (uid : Uuid) {n m : NotificationRow}
    (hn : n.user_id = some uid) (hm : m.user_id = some uid) :
    rlsUpdateAllowed notificationsPolicies db uid n m = true := by
  simp [rlsUpdateAllowed, notificationsPolicies, Policy.checkOf, cmdCoversUpdate,
    List.any_cons, List.any_nil, hn, hm]

/-- The notifications UPDATE policy blocks every update of a row not
belonging to the caller. -/
theorem notif_update_blocked_of (db : DB) (uid : Uuid) {n : NotificationRow}
    (m : NotificationRow) (hn : ¬n.user_id = some uid) :
    rlsUpdateAllowed notificationsPolicies db uid n m = false := by
  simp [rlsUpdateAllowed, notificationsPolicies, Policy.checkOf, cmdCoversUpdate,
    List.any_cons, List.any_nil, hn]

/-- The id-targeted bulk update, run under the notifications policies,
acts as the per-user update whenever the id set covers the caller's unread
rows. -/
theorem markAll_core (db : DB) (uid : Uuid) (U : List Uuid)
    (hU : ∀ n ∈ db.notifications, n.user_id = some uid → n.read = false → n.id ∈ U) :
    rlsApplyUpdate notificationsPolicies db uid (fun n => decide (n.id ∈ U))
        (fun n => { n with read := true }) db.notifications =
      db.notifications.map (fun n =>
        if n.user_id = some uid then { n with read := true } else n) := by
  unfold rlsApplyUpdate
  apply List.map_congr_left
  intro n hn
  by_cases hnu : n.user_id = some uid
  · have hok : rlsUpdateAllowed notificationsPolicies db uid n { n with read := true } =
        true := notif_update_allowed_of db uid hnu hnu
    rw [if_pos hnu]
    cases hrd : n.read with
    | false =>
        have hmem : n.id ∈ U := hU n hn hnu hrd
        have hcond : (decide (n.id ∈ U) &&
            rlsUpdateAllowed notificationsPolicies db uid n { n with read := true }) =
              true := by
          simp [hok, hmem]
        rw [if_pos hcond]
    | true =>
        by_cases hc : (decide (n.id ∈ U) &&
            rlsUpdateAllowed notificationsPolicies db uid n { n with read := true }) =
              true
        · rw [if_pos hc, set_read_true_self hrd]
          exact set_read_true_self hrd
        · rw [if_neg hc, set_read_true_self hrd]
  · have hblk : rlsUpdateAllowed notificationsPolicies db uid n { n with read := true } =
        false := notif_update_blocked_of db uid _ hnu
    have hcond : ¬((decide (n.id ∈ U) &&
        rlsUpdateAllowed notificationsPolicies db uid n { n with read := true }) =
          true) := by
      simp [hblk]
    rw [if_neg hcond, if_neg hnu]

/-- Claim C6: `markAllAsRead` run by a user rewrites the stored table to
set `read = true` on exactly that user's unread rows, leaving every other
user's rows — and every field other than `read` — unchanged. -/
theorem mark_all_as_read_spec (db : DB) (uid : Uuid) :
    markAllAsRead db uid =
      db.notifications.map (fun n =>
        if n.user_id = some uid then { n with read := true } else n) := by
  simp only [markAllAsRead]
  cases hemp : (((db.notifications.filter fun n =>
      decide (n.user_id = some uid)).filter fun n => !n.read).map
      NotificationRow.id).isEmpty with
  | false =>
      simp only [hemp, Bool.false_eq_true, if_false]
      apply markAll_core
      intro n hn hnu hrd
      exact List.mem_map.mpr
        ⟨n, List.mem_filter.mpr
            ⟨List.mem_filter.mpr ⟨hn, by simp [hnu]⟩, by simp [hrd]⟩, rfl⟩
  | true =>
      simp only [hemp, if_true]
      have hnil : ((db.notifications.filter fun n =>
          decide (n.user_id = some uid)).filter fun n => !n.read) = [] :=
        List.map_eq_nil_iff.mp (List.isEmpty_iff.mp hemp)
      have hall : ∀ n ∈ db.notifications, n.user_id = some uid → n.read = true := by
        intro n hn hnu
        cases hrd : n.read with
        | true => rfl
        | false =>
            have hmem : n ∈ ((db.notifications.filter fun n =>
                decide (n.user_id = some uid)).filter fun n => !n.read) :=
              List.mem_filter.mpr
                ⟨List.mem_filter.mpr ⟨hn, by simp [hnu]⟩, by simp [hrd]⟩
            rw [hnil] at hmem
            exact absurd hmem (List.not_mem_nil n)
      symm
      apply list_map_id_of
      intro n hn
      by_cases hnu : n.user_id = some uid
      · rw [if_pos hnu, set_read_true_self (hall n hn hnu)]
      · rw [if_neg hnu]

/-- Claim C10: the notifications policy set has no DELETE-applicable
policy, so an authenticated delete removes no stored row — while the
client's `deleteNotification` still drops exactly the targeted item from
the local screen state. -/
theorem notifications_delete_is_noop :
    (notificationsPolicies.all fun p => !cmdCoversDelete p.cmd) = true ∧
    (∀ db uid notifId, deleteNotificationServer db uid notifId = db.notifications) ∧
    (∀ shown notifId n,
      n ∈ deleteNotificationLocal shown notifId ↔ n ∈ shown ∧ n.id ≠ notifId) := by
  refine ⟨by decide, ?_, ?_⟩
  · intro db uid notifId
    unfold deleteNotificationServer
    have hno : ∀ n, rlsDeleteRowAllowed notificationsPolicies db uid n = false := by
      intro n
      simp [rlsDeleteRowAllowed, notificationsPolicies, cmdCoversDelete,
        List.any_cons, List.any_nil]
    simp only [hno, Bool.and_false, Bool.not_false]
    exact List.filter_true db.notifications
  · intro shown notifId n
    simp [deleteNotificationLocal, List.mem_filter]

/-- Claim C8 is refuted: the notifications screen's `markAsRead` catches
its failure but shows no alert at all, so not every data-access failure is
surfaced as exactly one user-facing alert. -/
theorem mark_as_read_no_alert_counterexample :
    ("notifications.markAsRead", (⟨true, 0, 0, true⟩ : CatchBehavior)) ∈ clientHandlers ∧
    ¬((⟨true, 0, 0, true⟩ : CatchBehavior).alerts = 1) ∧
    ¬(∀ h ∈ clientHandlers, h.2.caught = true ∧ h.2.alerts = 1 ∧ h.2.retries = 0) := by
  decide

/-- Claim C8 (amended): every data-access failure is caught at its call
site, never retried, and surfaced as at most one alert; `markAsRead`, the
landowner documents screen's `fetchMyLands` and the auth provider's
`fetchProfile` surface none and only log. -/
theorem data_access_failure_handling :
    ∀ h ∈ clientHandlers, h.2.caught = true ∧ h.2.alerts ≤ 1 ∧ h.2.retries = 0 := by
  decide

/-- Witness for the amended C8 at the admin documents screen's
`fetchDocuments` handler. -/
theorem data_access_failure_handling_witness :
    ("adminDocuments.fetchDocuments", (⟨true, 1, 0, true⟩ : CatchBehavior)) ∈
        clientHandlers ∧
    ((⟨true, 1, 0, true⟩ : CatchBehavior).caught = true ∧
      (⟨true, 1, 0, true⟩ : CatchBehavior).alerts ≤ 1 ∧
      (⟨true, 1, 0, true⟩ : CatchBehavior).retries = 0) :=
  ⟨by decide,
    data_access_failure_handling
      ("adminDocuments.fetchDocuments", (⟨true, 1, 0, true⟩ : CatchBehavior))
      (by decide)⟩

/-- Claim C9 is refuted: from the provider's start state (loading true),
an auth-state-change event that carries no user also flips `loading` to
false, though it is neither the initial session check resolving with no
user nor a profile fetch settling. -/
theorem auth_loading_counterexample :
    authStart.loading = true ∧
    (authStep authStart (AuthEvent.authChange none)).loading = false ∧
    claimedSettleEvent (AuthEvent.authChange none) = false := by
  decide

/-- Claim C9 (amended): `loading` starts true and a transition ends with
`loading` false exactly after a settling event — the initial session check
resolving with no user or rejecting, an auth-state change without a user,
or a profile fetch settling; and while `loading` is true the index screen
only shows the spinner, performing no role-based routing. -/
theorem auth_loading_transitions :
    authStart.loading = true ∧
    (∀ st e, (authStep st e).loading = false → settlesLoading e = true) ∧
    (∀ st e, settlesLoading e = true → (authStep st e).loading = false) ∧
    (∀ s p, routeDecision true s p = Route.wait) := by
  refine ⟨rfl, ?_, ?_, fun s p => rfl⟩
  · intro st e h
    cases e with
    | initialSession s => cases s <;> simp_all [authStep, settlesLoading]
    | initialSessionFailed => rfl
    | authChange s => cases s <;> simp_all [authStep, settlesLoading]
    | profileFetched r => cases r <;> rfl
  · intro st e h
    cases e with
    | initialSession s => cases s <;> simp_all [authStep, settlesLoading]
    | initialSessionFailed => rfl
    | authChange s => cases s <;> simp_all [authStep, settlesLoading]
    | profileFetched r => cases r <;> rfl

/-- Witness for the amended C9: the initial session check resolving with
no user is a settling event and does end loading, from the start state. -/
theorem auth_loading_transitions_witness :
    authStart.loading = true ∧
    settlesLoading (AuthEvent.initialSession none) = true ∧
    (authStep authStart (AuthEvent.initialSession none)).loading = false ∧
    routeDecision true (some sampleSession) (some adminProfile) = Route.wait :=
  ⟨auth_loading_transitions.1,
    auth_loading_transitions.2.1 authStart (AuthEvent.initialSession none) (by decide),
    auth_loading_transitions.2.2.1 authStart (AuthEvent.initialSession none) (by decide),
    auth_loading_transitions.2.2.2 (some sampleSession) (some adminProfile)⟩

/-- Membership through one conditional filter stage: the element was
already present, and passes the predicate whenever the stage ran. -/
theorem mem_of_ite_filter {α : Type} {p : α → Bool} {c : Prop} [Decidable c]
    {l : List α} {a : α} (h : a ∈ if c then l else l.filter p) :
    a ∈ l ∧ (¬c → p a = true) := by
  by_cases hc : c
  · rw [if_pos hc] at h
    exact ⟨h, fun hn => absurd hc hn⟩
  · rw [if_neg hc] at h
    have := List.mem_filter.mp h
    exact ⟨this.1, fun _ => this.2⟩

/-- Claim C7: the public screen fetches only verified land records, and
`applyFilters` returns a subset of the fetched set whose members match the
search text and every active bound; with empty search text and cleared
filters it returns the fetched set unchanged. -/
theorem public_search_filters :
    (∀ db lr, lr ∈ publicFetchLands db → lr.ownership_status = "verified") ∧
    (∀ parseNum lands q fl lr, lr ∈ applyFilters parseNum lands q fl →
      lr ∈ lands ∧
      (q ≠ "" → matchesSearch lr q = true) ∧
      (fl.minPrice ≠ "" → priceAtLeast parseNum lr.price fl.minPrice = true) ∧
      (fl.maxPrice ≠ "" → priceAtMost parseNum lr.price fl.maxPrice = true) ∧
      (fl.minSize ≠ "" → parseNum fl.minSize ≤ lr.size) ∧
      (fl.maxSize ≠ "" → lr.size ≤ parseNum fl.maxSize) ∧
      (fl.zoning ≠ "" → includesStr lr.zoning.toLower fl.zoning.toLower = true)) ∧
    (∀ parseNum lands, applyFilters parseNum lands "" emptyFilters = lands) := by
  refine ⟨?_, ?_, ?_⟩
  · intro db lr h
    have hm := List.mem_filter.mp h
    simpa using hm.2
  · intro parseNum lands q fl lr h
    simp only [applyFilters] at h
    obtain ⟨h5, hz⟩ := mem_of_ite_filter h
    obtain ⟨h4, hmaxs⟩ := mem_of_ite_filter h5
    obtain ⟨h3, hmins⟩ := mem_of_ite_filter h4
    obtain ⟨h2, hmaxp⟩ := mem_of_ite_filter h3
    obtain ⟨h1, hminp⟩ := mem_of_ite_filter h2
    obtain ⟨h0, hq⟩ := mem_of_ite_filter h1
    exact ⟨h0, hq, hminp, hmaxp,
      fun hc => by simpa using hmins hc,
      fun hc => by simpa using hmaxs hc, hz⟩
  · intro parseNum lands
    simp [applyFilters, emptyFilters]

/-- Witness for C7: the verified plot is fetched verified from `dbVerified`
and survives `applyFilters` with empty search text and cleared filters,
which return the singleton fetched set unchanged. -/
theorem public_search_filters_witness :
    plotVerifiedByOwner.ownership_status = "verified" ∧
    plotVerifiedByOwner ∈ [plotVerifiedByOwner] ∧
    applyFilters constParse [plotVerifiedByOwner] "" emptyFilters =
      [plotVerifiedByOwner] :=
  ⟨public_search_filters.1 dbVerified plotVerifiedByOwner (by decide),
    (public_search_filters.2.1 constParse [plotVerifiedByOwner] "" emptyFilters
        plotVerifiedByOwner (by decide)).1,
    public_search_filters.2.2 constParse [plotVerifiedByOwner]⟩

end LandVerify
